import Mathlib

/-!
Verification development for the ESPN fantasy-football live-standings service.

The definitions below are a shallow embedding of the core logic of
src/tracker/score_fetcher.py (dataclass TeamScore and class ScoreFetcher) and of
the polling scheduler in src/fantasy_tracker.py (_update_scores).  Python
floats are modelled as rationals, Python None as Option, exceptions as
Option/Except results, and the mutable ScoreFetcher object as an explicit
state record.
-/

/-- Python max(a, b) on numbers: the first argument wins ties. -/
def pyMax (a b : ℚ) : ℚ := if b ≤ a then a else b

/-- Python min(a, b) on numbers: the first argument wins ties. -/
def pyMin (a b : ℚ) : ℚ := if a ≤ b then a else b

/-- Python max(a, b) on integers. -/
def pyMaxInt (a b : Int) : Int := if b ≤ a then a else b

/-- ASCII lower-casing of one character; the status vocabulary compared
against is ASCII, so this models Python str.lower on the inputs that occur. -/
def charLower (c : Char) : Char :=
  if 65 ≤ c.toNat ∧ c.toNat ≤ 90 then Char.ofNat (c.toNat + 32) else c

/-- Python str.lower. -/
def strLower (s : String) : String := String.mk (s.toList.map charLower)

/-- Rounding of a rational to the nearest integer, halves to even; models the
behaviour of the Python builtin round on the values occurring here. -/
def roundHalfEven (q : ℚ) : Int :=
  let n := ⌊q⌋
  if q - n < 1/2 then n
  else if 1/2 < q - n then n + 1
  else if n % 2 = 0 then n else n + 1

/-- Python round(x, 2). -/
def round2 (q : ℚ) : ℚ := (roundHalfEven (q * 100) : ℚ) / 100

/-- Rendering of a rational with one decimal digit; models the f-string
format specifier :.1f used for the player labels. -/
def fmt1 (q : ℚ) : String :=
  let n := roundHalfEven (q * 10)
  (if n < 0 then "-" else "") ++ toString (n.natAbs / 10) ++ "." ++ toString (n.natAbs % 10)

/-- One roster entry as consumed by ScoreFetcher._build_team_data.  The field
defaults model the getattr defaults at the read boundary; game_played is the
provider play-state code, None when absent. -/
structure Player where
  name : String := "Unknown"
  slot_position : String
  points : ℚ := 0
  projected_points : ℚ := 0
  proTeam : String := ""
  game_played : Option Int := none
deriving Repr, DecidableEq

/-- One entry of the game-clock map built by _get_nfl_game_clocks, with the
dict-get defaults of _build_team_data. -/
structure ClockEntry where
  clock : String := "0:00"
  period : Int := 1
  status : String := ""
  minutes_played : ℚ := 0
deriving Repr, DecidableEq

/-- The TeamScore dataclass of src/tracker/score_fetcher.py. -/
structure TeamScore where
  team_name : String
  live_score : ℚ
  projected_score : ℚ
  currently_playing : List String
  yet_to_play : List String
  finished_playing : List String
  players_playing_count : Nat
  players_remaining_count : Nat
  players_finished_count : Nat
  total_starters : Nat
  rank : Option Nat := none
  is_current_top6 : Bool := false
  projected_rank : Option Nat := none
  is_projected_top6 : Bool := false
deriving Repr, DecidableEq

/-- ScoreFetcher.FINISHED_STATUSES. -/
def finishedStatuses : List String := ["final", "final overtime", "post"]

/-- ScoreFetcher.ACTIVE_STATUSES. -/
def activeStatuses : List String := ["in", "live", "halftime", "end of period", "delayed"]

/-- The not-started vocabulary used inside _calculate_minutes_played. -/
def notStartedVocab : List String := ["scheduled", "pre", "upcoming"]

/-- Substring test on character lists (Python: needle in haystack). -/
def hasSubstringChars (needle : List Char) : List Char → Bool
  | [] => needle.isEmpty
  | c :: cs => needle.isPrefixOf (c :: cs) || hasSubstringChars needle cs

/-- Python substring containment w in s. -/
def containsWord (w s : String) : Bool := hasSubstringChars w.toList s.toList

/-- any(word in status_lower for word in FINISHED_STATUSES). -/
def statusFinishedMatch (statusLower : String) : Bool :=
  finishedStatuses.any (fun w => containsWord w statusLower)

/-- any(word in status_lower for word in ["scheduled", "pre", "upcoming"]). -/
def statusNotStartedMatch (statusLower : String) : Bool :=
  notStartedVocab.any (fun w => containsWord w statusLower)

/-- Value of a nonempty digit string. -/
def digitsToNat (cs : List Char) : Nat := cs.foldl (fun n c => 10 * n + (c.toNat - 48)) 0

/-- The Python int(str) conversion: optional surrounding whitespace, optional
sign, then decimal digits; None models the ValueError. -/
def pyInt (cs0 : List Char) : Option Int :=
  let cs := ((cs0.dropWhile Char.isWhitespace).reverse.dropWhile Char.isWhitespace).reverse
  match cs with
  | [] => none
  | c :: rest =>
    if c = '-' then
      if rest ≠ [] ∧ rest.all Char.isDigit then some (-(digitsToNat rest : Int)) else none
    else if c = '+' then
      if rest ≠ [] ∧ rest.all Char.isDigit then some ((digitsToNat rest : Int)) else none
    else if cs.all Char.isDigit then some ((digitsToNat cs : Int)) else none

/-- Python str.split at colons: every colon is a separator, empty parts are
kept. -/
def splitOnColon : List Char → List (List Char)
  | [] => [[]]
  | c :: cs =>
    match splitOnColon cs with
    | [] => [[]]
    | h :: t => if c = ':' then [] :: h :: t else (c :: h) :: t

/-- The clock-parsing block of _calculate_minutes_played: minutes and seconds
start at 0; they are read from the clock only when it splits at a colon into
exactly two parts; int() raising ValueError is modelled by none. -/
def parseClock (clock : String) : Option (Int × Int) :=
  if clock.toList.contains ':' then
    match splitOnColon clock.toList with
    | [a, b] =>
      match pyInt a, pyInt b with
      | some m, some s => some (m, s)
      | _, _ => none
    | _ => some (0, 0)
  else some (0, 0)

/-- ScoreFetcher._calculate_minutes_played. -/
def calculateMinutesPlayed (clock : String) (period : Int) (status : String) : ℚ :=
  let statusLower := strLower status
  if statusFinishedMatch statusLower then 60
  else if statusNotStartedMatch statusLower then 0
  else
    match parseClock clock with
    | none => 30
    | some (m, s) =>
      let remainingInQuarter : ℚ := (m : ℚ) + (s : ℚ) / 60
      let completedQuarters : Int := pyMaxInt 0 (period - 1)
      let minutesInCurrentQuarter : ℚ := 15 - remainingInQuarter
      let totalMinutes : ℚ := (completedQuarters : ℚ) * 15 + minutesInCurrentQuarter
      pyMin (pyMax totalMinutes 0) 60

/-- ScoreFetcher._calculate_live_projection. -/
def calculateLiveProjection (preGameProjection currentPoints minutesPlayed : ℚ)
    (gamePlayed : Option Int) (gameStatus : String) : ℚ :=
  if gamePlayed = some 100 ∨ gamePlayed = some 2 ∨ gameStatus ∈ finishedStatuses
      ∨ 60 ≤ minutesPlayed then
    currentPoints
  else if gamePlayed = some 0 then
    preGameProjection
  else
    let progress := pyMax 0 (pyMin 1 (minutesPlayed / 60))
    let baseline := pyMax preGameProjection 0
    let actual := pyMax currentPoints 0
    let remainingProjection := pyMax (baseline - actual) 0
    let projected := actual + remainingProjection * (1 - progress)
    let projected :=
      if baseline < actual then actual + (actual - baseline) * (1 - progress * (1/2))
      else projected
    round2 projected

/-- self.game_clocks.get(pro_team, {}) followed by the field gets. -/
def lookupClock (clocks : List (String × ClockEntry)) (abbr : String) : ClockEntry :=
  ((clocks.find? (fun e => decide (e.1 = abbr))).map Prod.snd).getD {}

/-- The three classification buckets of _build_team_data. -/
inductive Bucket where
  | playing
  | yet
  | finished
deriving Repr, DecidableEq

/-- The if/elif/else classification chain of _build_team_data for one starter,
given the lowercased status of the player's game. -/
def classifyPlayer (p : Player) (gameStatus : String) : Bucket :=
  if p.game_played = some 0 then .yet
  else if p.game_played = some 1 then .playing
  else if p.game_played = some 100 ∨ p.game_played = some 2 then .finished
  else if gameStatus ∈ finishedStatuses then .finished
  else if gameStatus ∈ activeStatuses then .playing
  else .yet

/-- Classification of a player with its clock entry resolved. -/
def bucketForPlayer (clocks : List (String × ClockEntry)) (p : Player) : Bucket :=
  classifyPlayer p (strLower (lookupClock clocks p.proTeam).status)

/-- Live projection of a player with its clock entry resolved. -/
def liveProjectionForPlayer (clocks : List (String × ClockEntry)) (p : Player) : ℚ :=
  let cd := lookupClock clocks p.proTeam
  calculateLiveProjection p.projected_points p.points cd.minutes_played p.game_played
    (strLower cd.status)

/-- Label used for currently_playing and finished_playing entries. -/
def labelWithPoints (p : Player) : String := p.name ++ " (" ++ fmt1 p.points ++ ")"

/-- Label used for yet_to_play entries. -/
def labelWithProjection (p : Player) : String :=
  p.name ++ " (proj: " ++ fmt1 p.projected_points ++ ")"

/-- Accumulated per-lineup data of the loop in _build_team_data. -/
structure LineupTotals where
  currently_playing : List String
  yet_to_play : List String
  finished_playing : List String
  projected_total : ℚ
  total_starters : Nat
deriving Repr, DecidableEq

/-- The player loop of ScoreFetcher._build_team_data. -/
def processLineup (clocks : List (String × ClockEntry)) : List Player → LineupTotals
  | [] => ⟨[], [], [], 0, 0⟩
  | p :: rest =>
    let acc := processLineup clocks rest
    if p.slot_position = "BE" then acc
    else
      let lp := liveProjectionForPlayer clocks p
      match bucketForPlayer clocks p with
      | .playing =>
        ⟨labelWithPoints p :: acc.currently_playing, acc.yet_to_play, acc.finished_playing,
          lp + acc.projected_total, acc.total_starters + 1⟩
      | .yet =>
        ⟨acc.currently_playing, labelWithProjection p :: acc.yet_to_play, acc.finished_playing,
          lp + acc.projected_total, acc.total_starters + 1⟩
      | .finished =>
        ⟨acc.currently_playing, acc.yet_to_play, labelWithPoints p :: acc.finished_playing,
          lp + acc.projected_total, acc.total_starters + 1⟩

/-- ScoreFetcher._build_team_data (the singleton list wrapper is dropped;
float(score) if score else 0.0 equals score in both branches). -/
def buildTeamData (teamName : String) (lineup : List Player)
    (clocks : List (String × ClockEntry)) (score : ℚ) : TeamScore :=
  let t := processLineup clocks lineup
  { team_name := teamName
    live_score := score
    projected_score := round2 t.projected_total
    currently_playing := t.currently_playing
    yet_to_play := t.yet_to_play
    finished_playing := t.finished_playing
    players_playing_count := t.currently_playing.length
    players_remaining_count := t.yet_to_play.length
    players_finished_count := t.finished_playing.length
    total_starters := t.total_starters }

/-- Stable descending insertion by a rational key: the new element is placed
before the first element whose key is at most its own. -/
def insertByDesc (key : α → ℚ) (a : α) : List α → List α
  | [] => [a]
  | b :: bs => if key b ≤ key a then a :: b :: bs else b :: insertByDesc key a bs

/-- Stable descending sort by a rational key; models Python list.sort with
reverse=True, which keeps the input order of elements with equal keys. -/
def sortByDesc (key : α → ℚ) : List α → List α
  | [] => []
  | a :: as => insertByDesc key a (sortByDesc key as)

/-- Pair every element with its position, starting at i. -/
def withIndex (i : Nat) : List α → List (Nat × α)
  | [] => []
  | a :: as => (i, a) :: withIndex (i + 1) as

/-- Index of the first occurrence of j, the length when j is absent. -/
def idxOfNat (j : Nat) : List Nat → Nat
  | [] => 0
  | i :: is => if i = j then 0 else idxOfNat j is + 1

/-- The first loop of _sort_and_rank_teams: after the stable descending sort
by live score, position idx receives rank idx+1 and is_current_top6 = idx < 6. -/
def rankPass (base : List TeamScore) : List TeamScore :=
  (withIndex 0 base).map (fun p =>
    { p.2 with rank := some (p.1 + 1), is_current_top6 := decide (p.1 < 6) })

/-- The position (in the live-sorted, rank-annotated list) of each team, in
projected-score order: sorted(teams, key=projected_score, reverse=True). -/
def projPosList (ranked : List TeamScore) : List Nat :=
  (sortByDesc (fun p => p.2.projected_score) (withIndex 0 ranked)).map Prod.fst

/-- The second loop of _sort_and_rank_teams: the Python code mutates the team
objects through the projected-sorted alias list, so the team at position j of
the ranked list receives projected_rank = 1 + its position in the
projected-score ordering. -/
def projPass (ranked : List TeamScore) : List TeamScore :=
  (withIndex 0 ranked).map (fun p =>
    { p.2 with projected_rank := some (idxOfNat p.1 (projPosList ranked) + 1),
               is_projected_top6 := decide (idxOfNat p.1 (projPosList ranked) < 6) })

/-- ScoreFetcher._sort_and_rank_teams.  The Python function mutates the team
objects: it sorts by live score (stable, descending), writes rank and
is_current_top6 by position, then sorts the same objects by projected score
and writes projected_rank and is_projected_top6 by position in that order,
and finally re-sorts by live score.  Object identity is modelled by pairing
each record with its position in the live-sorted list. -/
def sortAndRankTeams (teams : List TeamScore) : List TeamScore :=
  sortByDesc (fun t => t.live_score)
    (projPass (rankPass (sortByDesc (fun t => t.live_score) teams)))

/-- The adaptive sleep computation at the bottom of
FantasyTracker._update_scores in src/fantasy_tracker.py, as a function of the
consecutive-failure counter, the cached games-today flag, and the local hour
(is_prime_time = 12 <= now.hour <= 23). -/
def updateSleepSeconds (consecutiveFailures : Nat) (hasGamesToday : Bool) (hour : Nat) : Nat :=
  if 0 < consecutiveFailures then
    min 600 (60 * 2 ^ (min consecutiveFailures 4))
  else if hasGamesToday = true ∧ 12 ≤ hour ∧ hour ≤ 23 then 120
  else if hasGamesToday = true then 300
  else 600

/-- Python truthiness of an optional string (os.getenv result): None and the
empty string are falsy. -/
def truthy : Option String → Bool
  | none => false
  | some s => !(s.isEmpty)

/-- The mutable state of a ScoreFetcher that the claims depend on. -/
structure FetcherState where
  league : Option Unit
  api_error : Option String
  current_week : Nat
deriving Repr, DecidableEq

/-- ScoreFetcher._connect_to_espn: reads the three environment values; when
any is missing a ValueError is raised and caught, leaving league unset and
api_error set; otherwise the League constructor runs, whose outcome (it is an
external call) is the mk argument, and a constructor failure is caught the
same way.  Returns the league and api_error fields it assigns. -/
def connectToEspn (leagueId espnS2 swid : Option String)
    (mk : Except String Unit) : Option Unit × Option String :=
  if truthy leagueId && truthy espnS2 && truthy swid then
    match mk with
    | .ok l => (some l, none)
    | .error _ => (none, some "Unable to connect to ESPN. Check credentials.")
  else (none, some "Unable to connect to ESPN. Check credentials.")

/-- ScoreFetcher.__init__: connect, then adopt the externally resolved week. -/
def initFetcher (leagueId espnS2 swid : Option String) (mk : Except String Unit)
    (week : Nat) : FetcherState :=
  let c := connectToEspn leagueId espnS2 swid mk
  { league := c.1, api_error := c.2, current_week := week }

/-- One matchup of league.box_scores(week). -/
structure Matchup where
  home_team : String
  home_lineup : List Player
  home_score : ℚ
  away_team : String
  away_lineup : List Player
  away_score : ℚ
deriving Repr, DecidableEq

/-- The team list accumulated over the box scores in _get_live_scores. -/
def teamsOfBoxScores (clocks : List (String × ClockEntry)) (ms : List Matchup) :
    List TeamScore :=
  ms.flatMap (fun m =>
    [buildTeamData m.home_team m.home_lineup clocks m.home_score,
     buildTeamData m.away_team m.away_lineup clocks m.away_score])

/-- ScoreFetcher._get_live_scores.  Without a league connection it returns the
empty list untouched; otherwise the external box_scores call either succeeds
(the ranked list is returned and api_error cleared) or raises (api_error is
set to the exception message and the exception propagates, modelled by the
Except value). -/
def getLiveScores (st : FetcherState) (clocks : List (String × ClockEntry))
    (boxScores : Except String (List Matchup)) :
    Except String (List TeamScore) × FetcherState :=
  match st.league with
  | none => (.ok [], st)
  | some _ =>
    match boxScores with
    | .ok ms =>
      (.ok (sortAndRankTeams (teamsOfBoxScores clocks ms)), { st with api_error := none })
    | .error e => (.error e, { st with api_error := some e })

/-- The snapshot dictionary of ScoreFetcher.build_snapshot. -/
structure Snapshot where
  scores : List TeamScore
  last_update : String
  week : Nat
  api_error : Option String
deriving Repr, DecidableEq

/-- ScoreFetcher.build_snapshot: fetch the scores (an exception there
propagates, producing no snapshot), then package them with the timestamp, the
week, and the current api_error. -/
def buildSnapshot (st : FetcherState) (clocks : List (String × ClockEntry))
    (boxScores : Except String (List Matchup)) (timestamp : String) :
    Except String Snapshot × FetcherState :=
  match getLiveScores st clocks boxScores with
  | (.ok scores, st') =>
    (.ok { scores := scores, last_update := timestamp, week := st'.current_week,
           api_error := st'.api_error }, st')
  | (.error e, st') => (.error e, st')

/-- The starters of a lineup: the entries whose slot is not the bench. -/
def starters (lineup : List Player) : List Player :=
  lineup.filter (fun p => decide (p.slot_position ≠ "BE"))

/-- The starters that the classification chain sends to bucket b. -/
def playersInBucket (clocks : List (String × ClockEntry)) (lineup : List Player)
    (b : Bucket) : List Player :=
  (starters lineup).filter (fun p => decide (bucketForPlayer clocks p = b))

/-- The names of the starters sent to bucket b. -/
def bucketNames (clocks : List (String × ClockEntry)) (lineup : List Player)
    (b : Bucket) : List String :=
  (playersInBucket clocks lineup b).map (fun p => p.name)

/-- The in-progress projection formula exactly as the specification states it:
progress = clamp(minutes/60, 0, 1), baseline = max(pre_game, 0),
actual = max(actual, 0), remaining = max(baseline - actual, 0), and
projected = actual + remaining*(1-progress), replaced by
actual + (actual - baseline)*(1 - progress*0.5) when actual exceeds baseline,
rounded to two decimals.  Stated for comparison with the code function. -/
def claimInProgressFormula (pre cur minutes : ℚ) : ℚ :=
  let progress := pyMax 0 (pyMin 1 (minutes / 60))
  let baseline := pyMax pre 0
  let actual := pyMax cur 0
  let remaining := pyMax (baseline - actual) 0
  if baseline < actual then round2 (actual + (actual - baseline) * (1 - progress * (1/2)))
  else round2 (actual + remaining * (1 - progress))

/-- A bare team record as it enters the ranking step. -/
def demoTeam (nm : String) (ls ps : ℚ) : TeamScore :=
  { team_name := nm, live_score := ls, projected_score := ps,
    currently_playing := [], yet_to_play := [], finished_playing := [],
    players_playing_count := 0, players_remaining_count := 0,
    players_finished_count := 0, total_starters := 0 }

/-- The four teams of the concrete ranking scenario, in input order, with
live scores 88.2, 101.5, 101.5, 40.0. -/
def demoFourTeams : List TeamScore :=
  [demoTeam "T1" 88.2 88.2, demoTeam "T2" 101.5 101.5,
   demoTeam "T3" 101.5 101.5, demoTeam "T4" 40.0 40.0]

/-- Two teams with equal projected scores but different live scores, in input
order A (live 10) then B (live 20). -/
def demoTieTeams : List TeamScore := [demoTeam "A" 10 50, demoTeam "B" 20 50]

/-- A small game-clock map for concrete checks. -/
def demoClocks : List (String × ClockEntry) :=
  [("KC", { clock := "5:00", period := 2, status := "in", minutes_played := 25 })]

/-- A small lineup: one player in progress, one not started, one on the bench,
one finished. -/
def demoLineup : List Player :=
  [{ name := "Alice", slot_position := "QB", points := 12, projected_points := 18,
     proTeam := "KC", game_played := some 1 },
   { name := "Bob", slot_position := "RB", points := 0, projected_points := 11,
     proTeam := "DAL", game_played := some 0 },
   { name := "Carol", slot_position := "BE", points := 7, projected_points := 9,
     proTeam := "KC", game_played := some 1 },
   { name := "Dave", slot_position := "WR", points := 14, projected_points := 10,
     proTeam := "NYG", game_played := some 100 }]

/-! ### Properties of the stable descending sort -/

/-- Inserting permutes: the result holds the new element and the old ones. -/
theorem insertByDesc_perm {α : Type} (key : α → ℚ) (a : α) (l : List α) :
    (insertByDesc key a l).Perm (a :: l) := by
  induction l with
  | nil => simp [insertByDesc]
  | cons b bs ih =>
    simp only [insertByDesc]
    split
    · exact List.Perm.refl _
    · exact (ih.cons b).trans (List.Perm.swap a b bs)

/-- The sort permutes its input. -/
theorem sortByDesc_perm {α : Type} (key : α → ℚ) (l : List α) :
    (sortByDesc key l).Perm l := by
  induction l with
  | nil => simp [sortByDesc]
  | cons a as ih => exact (insertByDesc_perm key a _).trans (ih.cons a)

/-- Inserting into a descending list keeps it descending. -/
theorem insertByDesc_pairwise {α : Type} (key : α → ℚ) (a : α) (l : List α)
    (h : l.Pairwise (fun x y => key y ≤ key x)) :
    (insertByDesc key a l).Pairwise (fun x y => key y ≤ key x) := by
  induction l with
  | nil => simp [insertByDesc]
  | cons b bs ih =>
    rw [List.pairwise_cons] at h
    simp only [insertByDesc]
    split
    · rename_i hba
      refine List.pairwise_cons.mpr ⟨?_, List.pairwise_cons.mpr ⟨h.1, h.2⟩⟩
      intro c hc
      rcases List.mem_cons.mp hc with rfl | hc2
      · exact hba
      · exact (h.1 c hc2).trans hba
    · rename_i hba
      refine List.pairwise_cons.mpr ⟨?_, ih h.2⟩
      intro c hc
      rcases List.mem_cons.mp ((insertByDesc_perm key a bs).mem_iff.mp hc) with rfl | hc3
      · exact le_of_not_le hba
      · exact h.1 c hc3

/-- The sorted output is descending in the key. -/
theorem sortByDesc_pairwise {α : Type} (key : α → ℚ) (l : List α) :
    (sortByDesc key l).Pairwise (fun x y => key y ≤ key x) := by
  induction l with
  | nil => simp [sortByDesc]
  | cons a as ih => exact insertByDesc_pairwise key a _ ih

/-- Filtering one key value through an insertion: the new element lands in
front of the equal-key elements already present. -/
theorem insertByDesc_filter_key {α : Type} (key : α → ℚ) (a : α) (l : List α) (v : ℚ) :
    (insertByDesc key a l).filter (fun x => decide (key x = v))
      = if key a = v then a :: l.filter (fun x => decide (key x = v))
        else l.filter (fun x => decide (key x = v)) := by
  induction l with
  | nil => by_cases hv : key a = v <;> simp [insertByDesc, hv]
  | cons b bs ih =>
    simp only [insertByDesc]
    by_cases hba : key b ≤ key a
    · rw [if_pos hba]
      by_cases hv : key a = v <;> simp [List.filter_cons, hv]
    · rw [if_neg hba]
      by_cases hv : key a = v
      · have hbv : ¬ key b = v := fun h2 => hba (le_of_eq (h2.trans hv.symm))
        simp [List.filter_cons, ih, hv, hbv]
      · simp [List.filter_cons, ih, hv]

/-- Stability of the sort, expressed per key value: the elements whose key is
v appear in the output in exactly their input order. -/
theorem sortByDesc_filter_key {α : Type} (key : α → ℚ) (l : List α) (v : ℚ) :
    (sortByDesc key l).filter (fun x => decide (key x = v))
      = l.filter (fun x => decide (key x = v)) := by
  induction l with
  | nil => rfl
  | cons a as ih =>
    simp only [sortByDesc, insertByDesc_filter_key, ih]
    by_cases hv : key a = v <;> simp [List.filter_cons, hv]

/-- Sorting a list that is already descending is the identity. -/
theorem sortByDesc_eq_of_pairwise {α : Type} (key : α → ℚ) (l : List α)
    (h : l.Pairwise (fun x y => key y ≤ key x)) :
    sortByDesc key l = l := by
  induction l with
  | nil => rfl
  | cons a as ih =>
    rw [List.pairwise_cons] at h
    rw [sortByDesc, ih h.2]
    cases as with
    | nil => rfl
    | cons b bs => simp only [insertByDesc, if_pos (h.1 b (List.mem_cons_self b bs))]

/-! ### Properties of withIndex and idxOfNat -/

theorem withIndex_length {α : Type} (i : Nat) (l : List α) :
    (withIndex i l).length = l.length := by
  induction l generalizing i with
  | nil => rfl
  | cons a as ih => simp [withIndex, ih]

theorem withIndex_map_comp_fst {α β : Type} (g : Nat → β) (i : Nat) (l : List α) :
    (withIndex i l).map (fun p => g p.1) = (List.range' i l.length).map g := by
  induction l generalizing i with
  | nil => rfl
  | cons a as ih => simp [withIndex, List.range'_succ, ih]

theorem withIndex_map_fst {α : Type} (i : Nat) (l : List α) :
    (withIndex i l).map Prod.fst = List.range' i l.length := by
  have := withIndex_map_comp_fst (fun j => j) i l
  simpa using this

theorem withIndex_map_comp_snd {α β : Type} (g : α → β) (i : Nat) (l : List α) :
    (withIndex i l).map (fun p => g p.2) = l.map g := by
  induction l generalizing i with
  | nil => rfl
  | cons a as ih => simp [withIndex, ih]

theorem withIndex_mem_snd {α : Type} {q : Nat × α} {i : Nat} {l : List α}
    (h : q ∈ withIndex i l) : q.2 ∈ l := by
  induction l generalizing i with
  | nil => cases h
  | cons a as ih =>
    rcases List.mem_cons.mp h with rfl | h2
    · exact List.mem_cons_self a as
    · exact List.mem_cons_of_mem a (ih h2)

theorem withIndex_pairwise {α : Type} {R : α → α → Prop} {l : List α}
    (h : l.Pairwise R) (i : Nat) :
    (withIndex i l).Pairwise (fun p q => R p.2 q.2) := by
  induction l generalizing i with
  | nil => exact List.Pairwise.nil
  | cons a as ih =>
    rw [List.pairwise_cons] at h
    refine List.pairwise_cons.mpr ⟨?_, ih h.2 (i + 1)⟩
    intro q hq
    exact h.1 q.2 (withIndex_mem_snd hq)

theorem idxOfNat_lt_length {j : Nat} {L : List Nat} (h : j ∈ L) :
    idxOfNat j L < L.length := by
  induction L with
  | nil => cases h
  | cons i is ih =>
    simp only [idxOfNat]
    split
    · simp
    · rename_i hij
      have hj : j ∈ is := by
        rcases List.mem_cons.mp h with rfl | h2
        · exact absurd rfl hij
        · exact h2
      simpa using Nat.succ_lt_succ (ih hj)

theorem idxOfNat_getD {j : Nat} {L : List Nat} (h : j ∈ L) :
    L.getD (idxOfNat j L) 0 = j := by
  induction L with
  | nil => cases h
  | cons i is ih =>
    simp only [idxOfNat]
    split
    · rename_i hij
      simpa using hij
    · rename_i hij
      have hj : j ∈ is := by
        rcases List.mem_cons.mp h with rfl | h2
        · exact absurd rfl hij
        · exact h2
      simpa using ih hj

theorem idxOfNat_inj {j1 j2 : Nat} {L : List Nat} (h1 : j1 ∈ L) (h2 : j2 ∈ L)
    (he : idxOfNat j1 L = idxOfNat j2 L) : j1 = j2 := by
  have g1 := idxOfNat_getD h1
  have g2 := idxOfNat_getD h2
  rw [← g1, ← g2, he]

/-- The positions that the elements of 0..n-1 occupy inside a permutation of
0..n-1 are themselves a permutation of 0..n-1. -/
theorem perm_map_idxOfNat {L : List Nat} {n : Nat} (hp : L.Perm (List.range' 0 n)) :
    ((List.range' 0 n).map (fun j => idxOfNat j L)).Perm (List.range' 0 n) := by
  have hlen : L.length = n := by simpa [List.length_range'] using hp.length_eq
  have hmem : ∀ j, j ∈ List.range' 0 n → j ∈ L := fun j hj => hp.mem_iff.mpr hj
  have hnd : ((List.range' 0 n).map (fun j => idxOfNat j L)).Nodup := by
    refine List.Nodup.map_on ?_ (List.nodup_range' 0 n)
    intro x hx y hy hxy
    exact idxOfNat_inj (hmem x hx) (hmem y hy) hxy
  have hsub : ((List.range' 0 n).map (fun j => idxOfNat j L)) ⊆ List.range' 0 n := by
    intro z hz
    rcases List.mem_map.mp hz with ⟨x, hx, rfl⟩
    have hlt := idxOfNat_lt_length (hmem x hx)
    rw [hlen] at hlt
    exact List.mem_range'_1.mpr ⟨Nat.zero_le _, by simpa using hlt⟩
  refine (List.subperm_of_subset hnd hsub).perm_of_length_le ?_
  simp [List.length_range']

theorem range'_map_succ (i n : Nat) :
    (List.range' i n).map (fun j => j + 1) = List.range' (i + 1) n := by
  induction n generalizing i with
  | zero => rfl
  | succ m ih => simp [List.range'_succ, ih]

/-! ### The team aggregator -/

/-- The lineup loop computes exactly the bucket partition of the starters,
their labels, the summed live projections, and the starter count. -/
theorem processLineup_eq (clocks : List (String × ClockEntry)) (l : List Player) :
    processLineup clocks l =
      { currently_playing := (playersInBucket clocks l .playing).map labelWithPoints,
        yet_to_play := (playersInBucket clocks l .yet).map labelWithProjection,
        finished_playing := (playersInBucket clocks l .finished).map labelWithPoints,
        projected_total := ((starters l).map (liveProjectionForPlayer clocks)).sum,
        total_starters := (starters l).length } := by
  induction l with
  | nil => rfl
  | cons p rest ih =>
    by_cases hbe : p.slot_position = "BE"
    · have hst : starters (p :: rest) = starters rest := by
        simp [starters, List.filter_cons, hbe]
      simp only [processLineup, if_pos hbe, ih, playersInBucket, hst]
    · have hst : starters (p :: rest) = p :: starters rest := by
        simp [starters, List.filter_cons, hbe]
      cases hb : bucketForPlayer clocks p with
      | playing =>
        simp [processLineup, if_neg hbe, hb, ih, playersInBucket, hst, List.filter_cons]
      | yet =>
        simp [processLineup, if_neg hbe, hb, ih, playersInBucket, hst, List.filter_cons]
      | finished =>
        simp [processLineup, if_neg hbe, hb, ih, playersInBucket, hst, List.filter_cons]

/-- The three buckets partition any list by count. -/
theorem length_filter_bucket_partition {α : Type} (f : α → Bucket) (l : List α) :
    (l.filter (fun x => decide (f x = .playing))).length
      + (l.filter (fun x => decide (f x = .yet))).length
      + (l.filter (fun x => decide (f x = .finished))).length = l.length := by
  induction l with
  | nil => rfl
  | cons a as ih => cases hb : f a <;> simp [List.filter_cons, hb, ← ih] <;> omega

/-- C1: every TeamScore built by the team aggregator satisfies
players_playing_count + players_remaining_count + players_finished_count =
total_starters, where total_starters counts the non-bench lineup entries;
each count equals the length of its list; the three lists are exactly the
labels of the starters classified into the corresponding bucket (so every
starter lands in exactly one list); the projected sum ranges over starters
only; and, when the lineup names are distinct, the lists are pairwise
disjoint by player name and bench players appear in no list. -/
theorem C1_team_partition (teamName : String) (lineup : List Player)
    (clocks : List (String × ClockEntry)) (score : ℚ)
    (hnames : (lineup.map (fun p => p.name)).Nodup) :
    ∀ ts, ts = buildTeamData teamName lineup clocks score →
      (ts.players_playing_count + ts.players_remaining_count + ts.players_finished_count
          = ts.total_starters)
      ∧ ts.total_starters = (starters lineup).length
      ∧ ts.players_playing_count = ts.currently_playing.length
      ∧ ts.players_remaining_count = ts.yet_to_play.length
      ∧ ts.players_finished_count = ts.finished_playing.length
      ∧ ts.currently_playing = (playersInBucket clocks lineup .playing).map labelWithPoints
      ∧ ts.yet_to_play = (playersInBucket clocks lineup .yet).map labelWithProjection
      ∧ ts.finished_playing = (playersInBucket clocks lineup .finished).map labelWithPoints
      ∧ ts.projected_score
          = round2 (((starters lineup).map (liveProjectionForPlayer clocks)).sum)
      ∧ (∀ b1 b2 : Bucket, b1 ≠ b2 → ∀ nm, nm ∈ bucketNames clocks lineup b1 →
          nm ∉ bucketNames clocks lineup b2)
      ∧ (∀ p ∈ lineup, p.slot_position = "BE" → ∀ b, p.name ∉ bucketNames clocks lineup b) := by
  intro ts hts
  subst hts
  have hinj := List.inj_on_of_nodup_map hnames
  have hmemBucket : ∀ (b : Bucket) (nm : String), nm ∈ bucketNames clocks lineup b →
      ∃ q, q ∈ lineup ∧ q.slot_position ≠ "BE" ∧ bucketForPlayer clocks q = b ∧ q.name = nm := by
    intro b nm hnm
    rcases List.mem_map.mp hnm with ⟨q, hq, rfl⟩
    rcases List.mem_filter.mp hq with ⟨hqs, hqb⟩
    rcases List.mem_filter.mp hqs with ⟨hql, hqbe⟩
    exact ⟨q, hql, by simpa using hqbe, by simpa using hqb, rfl⟩
  refine ⟨?_, ?_, ?_, ?_, ?_, ?_, ?_, ?_, ?_, ?_, ?_⟩
  · simp only [buildTeamData, processLineup_eq, List.length_map]
    exact length_filter_bucket_partition (bucketForPlayer clocks) (starters lineup)
  · simp [buildTeamData, processLineup_eq]
  · simp [buildTeamData, processLineup_eq]
  · simp [buildTeamData, processLineup_eq]
  · simp [buildTeamData, processLineup_eq]
  · simp [buildTeamData, processLineup_eq, playersInBucket]
  · simp [buildTeamData, processLineup_eq, playersInBucket]
  · simp [buildTeamData, processLineup_eq, playersInBucket]
  · simp [buildTeamData, processLineup_eq]
  · intro b1 b2 hne nm h1 h2
    rcases hmemBucket b1 nm h1 with ⟨q1, hq1l, _, hq1b, hq1n⟩
    rcases hmemBucket b2 nm h2 with ⟨q2, hq2l, _, hq2b, hq2n⟩
    have : q1 = q2 := hinj hq1l hq2l (hq1n.trans hq2n.symm)
    exact hne (hq1b ▸ (this ▸ hq2b))
  · intro p hp hbe b hmem
    rcases hmemBucket b p.name hmem with ⟨q, hql, hqbe, _, hqn⟩
    exact hqbe (hinj hql hp hqn ▸ hbe)

/-- Concrete instance of C1: the four-player demo lineup has one starter in
each bucket and three starters in total. -/
theorem C1_team_partition_witness :
    (buildTeamData "Demo" demoLineup demoClocks 26).players_playing_count
        + (buildTeamData "Demo" demoLineup demoClocks 26).players_remaining_count
        + (buildTeamData "Demo" demoLineup demoClocks 26).players_finished_count
      = (buildTeamData "Demo" demoLineup demoClocks 26).total_starters :=
  (C1_team_partition "Demo" demoLineup demoClocks 26 (by decide)
    (buildTeamData "Demo" demoLineup demoClocks 26) rfl).1

/-! ### Live projection (C3, C4) -/

/-- C3 fails as stated: an input with play-state code 0 but minutes_played at
60 is caught by the finished branch first, so the code returns the actual
points (5), not the pre-game projection (20). -/
theorem C3_counterexample :
    calculateLiveProjection 20 5 60 (some 0) "x" = 5 ∧ (5 : ℚ) ≠ 20 := by
  constructor
  · simp only [calculateLiveProjection]
    rw [if_pos (Or.inr (Or.inr (Or.inr le_rfl)))]
  · norm_num

/-- C3 (amended): a finished input (play-state 100 or 2, status in the
finished vocabulary, or minutes_played at least 60) yields the actual points
exactly; an input that is not finished and has play-state 0 yields the
pre-game projection exactly. -/
theorem C3_projection_boundaries :
    (∀ (pre cur minutes : ℚ) (gp : Option Int) (status : String),
        (gp = some 100 ∨ gp = some 2 ∨ status ∈ finishedStatuses ∨ 60 ≤ minutes) →
        calculateLiveProjection pre cur minutes gp status = cur)
    ∧ (∀ (pre cur minutes : ℚ) (gp : Option Int) (status : String),
        ¬(gp = some 100 ∨ gp = some 2 ∨ status ∈ finishedStatuses ∨ 60 ≤ minutes) →
        gp = some 0 →
        calculateLiveProjection pre cur minutes gp status = pre) := by
  constructor
  · intro pre cur minutes gp status h
    simp only [calculateLiveProjection, if_pos h]
  · intro pre cur minutes gp status h h0
    simp only [calculateLiveProjection, if_neg h, if_pos h0]

/-- Concrete instance of the finished boundary: 60 minutes played returns the
actual points. -/
theorem C3_projection_boundaries_witness :
    calculateLiveProjection 20 7 60 none "x" = 7 :=
  C3_projection_boundaries.1 20 7 60 none "x" (by decide)

/-- C4: on every in-progress input (not finished, play-state not 0) the code
computes exactly the blended formula stated by the specification, and the two
concrete scenarios give 12.5 and 18.75. -/
theorem C4_in_progress_projection :
    (∀ (pre cur minutes : ℚ) (gp : Option Int) (status : String),
        ¬(gp = some 100 ∨ gp = some 2 ∨ status ∈ finishedStatuses ∨ 60 ≤ minutes) →
        ¬ gp = some 0 →
        calculateLiveProjection pre cur minutes gp status = claimInProgressFormula pre cur minutes)
    ∧ calculateLiveProjection 20 5 30 (some 1) "x" = 12.5
    ∧ calculateLiveProjection 10 15 30 (some 1) "x" = 18.75 := by
  refine ⟨?_, ?_, ?_⟩
  · intro pre cur minutes gp status h h0
    simp only [calculateLiveProjection, claimInProgressFormula, if_neg h, if_neg h0,
      apply_ite round2]
  · simp only [calculateLiveProjection]
    norm_num [pyMax, pyMin, round2, roundHalfEven, finishedStatuses]
    decide
  · simp only [calculateLiveProjection]
    norm_num [pyMax, pyMin, round2, roundHalfEven, finishedStatuses]
    decide

/-- Concrete instance of the amended C4 equation on an in-progress input. -/
theorem C4_in_progress_projection_witness :
    calculateLiveProjection 20 5 30 (some 1) "zz" = claimInProgressFormula 20 5 30 :=
  C4_in_progress_projection.1 20 5 30 (some 1) "zz" (by decide) (by decide)

/-! ### Minutes played (C6, C8) -/

/-- C6 fails as stated on two counts: a status containing both a not-started
word and a finished word ("pre final") yields 60, not 0, because the finished
vocabulary is tested first; and with period 0 the code floors
completed_quarters at 0 and returns 5 for clock 10:00, while the claim
formula (period-1)*15 + elapsed, clamped, gives 0. -/
theorem C6_counterexample :
    (statusNotStartedMatch (strLower "pre final") = true
      ∧ calculateMinutesPlayed "0:00" 1 "pre final" = 60
      ∧ (60 : ℚ) ≠ 0)
    ∧ (calculateMinutesPlayed "10:00" 0 "in" = 5
      ∧ pyMin (pyMax ((((0 : Int) - 1 : Int) : ℚ) * 15 + (15 - ((10 : ℚ) + (0 : ℚ) / 60))) 0) 60
          = 0
      ∧ (5 : ℚ) ≠ 0) := by
  refine ⟨⟨rfl, ?_, by norm_num⟩, ?_, ?_, by norm_num⟩
  · have h : statusFinishedMatch (strLower "pre final") = true := rfl
    simp [calculateMinutesPlayed, h]
  · have h1 : statusFinishedMatch (strLower "in") = false := rfl
    have h2 : statusNotStartedMatch (strLower "in") = false := rfl
    have hp : parseClock "10:00" = some (10, 0) := rfl
    simp only [calculateMinutesPlayed, h1, h2, hp, Bool.false_eq_true, if_false]
    norm_num [pyMin, pyMax, pyMaxInt]
  · norm_num [pyMin, pyMax]

/-- C6 (amended): a status containing a finished word yields 60; otherwise a
status containing a not-started word yields 0; otherwise, when the clock
parses as minutes:seconds, the result is
max(0, period-1)*15 + (15 - (minutes + seconds/60)) clamped to [0, 60]; and
clock 5:00, period 2, status "in progress" yields 25. -/
theorem C6_minutes_played :
    (∀ (clock : String) (period : Int) (status : String),
        statusFinishedMatch (strLower status) = true →
        calculateMinutesPlayed clock period status = 60)
    ∧ (∀ (clock : String) (period : Int) (status : String),
        statusFinishedMatch (strLower status) = false →
        statusNotStartedMatch (strLower status) = true →
        calculateMinutesPlayed clock period status = 0)
    ∧ (∀ (clock : String) (period : Int) (status : String) (m s : Int),
        statusFinishedMatch (strLower status) = false →
        statusNotStartedMatch (strLower status) = false →
        parseClock clock = some (m, s) →
        calculateMinutesPlayed clock period status
          = pyMin (pyMax ((pyMaxInt 0 (period - 1) : ℚ) * 15 + (15 - ((m : ℚ) + (s : ℚ) / 60))) 0)
              60)
    ∧ calculateMinutesPlayed "5:00" 2 "in progress" = 25 := by
  refine ⟨?_, ?_, ?_, ?_⟩
  · intro clock period status h
    simp [calculateMinutesPlayed, h]
  · intro clock period status h1 h2
    simp [calculateMinutesPlayed, h1, h2]
  · intro clock period status m s h1 h2 hp
    simp [calculateMinutesPlayed, h1, h2, hp]
  · have h1 : statusFinishedMatch (strLower "in progress") = false := rfl
    have h2 : statusNotStartedMatch (strLower "in progress") = false := rfl
    have hp : parseClock "5:00" = some (5, 0) := rfl
    simp only [calculateMinutesPlayed, h1, h2, hp, Bool.false_eq_true, if_false]
    norm_num [pyMin, pyMax, pyMaxInt]

/-- Concrete instance of the finished branch of C6. -/
theorem C6_minutes_played_witness :
    calculateMinutesPlayed "7:21" 4 "Final" = 60 :=
  C6_minutes_played.1 "7:21" 4 "Final" rfl

/-- C8 fails as stated: a clock with no colon at all ("garbage") cannot be
parsed as minutes:seconds, yet the code treats it as 0:00 (parse block keeps
minutes = seconds = 0 and raises nothing) and returns 15, not 30. -/
theorem C8_counterexample :
    calculateMinutesPlayed "garbage" 1 "in progress" = 15
    ∧ parseClock "garbage" = some (0, 0)
    ∧ statusFinishedMatch (strLower "in progress") = false
    ∧ statusNotStartedMatch (strLower "in progress") = false
    ∧ (15 : ℚ) ≠ 30 := by
  refine ⟨?_, rfl, rfl, rfl, by norm_num⟩
  have h1 : statusFinishedMatch (strLower "in progress") = false := rfl
  have h2 : statusNotStartedMatch (strLower "in progress") = false := rfl
  have hp : parseClock "garbage" = some (0, 0) := rfl
  simp only [calculateMinutesPlayed, h1, h2, hp, Bool.false_eq_true, if_false]
  norm_num [pyMin, pyMax, pyMaxInt]

/-- C8 (amended): the 30.0 fallback is returned exactly when the status
matches neither vocabulary and the clock splits at a colon into exactly two
parts of which at least one is not an integer literal (the int() call
raises); the function always returns a value, never an exception. -/
theorem C8_parse_fallback :
    ∀ (clock : String) (period : Int) (status : String),
      statusFinishedMatch (strLower status) = false →
      statusNotStartedMatch (strLower status) = false →
      parseClock clock = none →
      calculateMinutesPlayed clock period status = 30 := by
  intro clock period status h1 h2 hp
  simp [calculateMinutesPlayed, h1, h2, hp]

/-- Concrete instance of C8: a two-part clock with letters falls back to 30. -/
theorem C8_parse_fallback_witness :
    calculateMinutesPlayed "ab:cd" 1 "weird" = 30 :=
  C8_parse_fallback "ab:cd" 1 "weird" rfl rfl rfl

/-! ### The polling scheduler (C7) -/

/-- C7: with n > 0 consecutive failures the sleep is
min(600, 60 * 2^min(n,4)) seconds, giving 120, 240, 480 and then the 600 cap;
with no failures it is 120 during the noon-to-11pm window on a day with
games, 300 on a game day outside the window, and 600 with no games. -/
theorem C7_scheduler_sleep :
    (∀ (n : Nat) (g : Bool) (h : Nat), 0 < n →
        updateSleepSeconds n g h = min 600 (60 * 2 ^ (min n 4)))
    ∧ updateSleepSeconds 1 true 15 = 120
    ∧ updateSleepSeconds 2 true 15 = 240
    ∧ updateSleepSeconds 3 true 15 = 480
    ∧ updateSleepSeconds 4 true 15 = 600
    ∧ (∀ h : Nat, 12 ≤ h → h ≤ 23 → updateSleepSeconds 0 true h = 120)
    ∧ (∀ h : Nat, ¬(12 ≤ h ∧ h ≤ 23) → updateSleepSeconds 0 true h = 300)
    ∧ (∀ h : Nat, updateSleepSeconds 0 false h = 600) := by
  refine ⟨?_, by decide, by decide, by decide, by decide, ?_, ?_, ?_⟩
  · intro n g h hn
    simp only [updateSleepSeconds, if_pos hn]
  · intro h h1 h2
    simp [updateSleepSeconds, h1, h2]
  · intro h hh
    simp [updateSleepSeconds, hh]
  · intro h
    simp [updateSleepSeconds]

/-- Concrete instance of the backoff formula at five failures. -/
theorem C7_scheduler_sleep_witness :
    updateSleepSeconds 5 true 15 = min 600 (60 * 2 ^ (min 5 4)) :=
  C7_scheduler_sleep.1 5 true 15 (by decide)

/-! ### Configuration and fetch errors (C9, C10) -/

/-- C9: when any of the league id or the two session credentials is absent
(or empty), the connection attempt leaves the league unset and records the
error message; every subsequent fetch returns the empty list with the state
untouched, independently of what the matchup provider would have answered,
and build_snapshot packages empty scores with the non-null api_error. -/
theorem C9_config_error (lid s2 swid : Option String) (mk : Except String Unit) (week : Nat)
    (clocks : List (String × ClockEntry)) (box : Except String (List Matchup)) (ts : String)
    (h : (truthy lid && truthy s2 && truthy swid) = false) :
    (initFetcher lid s2 swid mk week).league = none
    ∧ (initFetcher lid s2 swid mk week).api_error
        = some "Unable to connect to ESPN. Check credentials."
    ∧ getLiveScores (initFetcher lid s2 swid mk week) clocks box
        = (.ok [], initFetcher lid s2 swid mk week)
    ∧ (buildSnapshot (initFetcher lid s2 swid mk week) clocks box ts).1
        = .ok { scores := [], last_update := ts, week := week,
                api_error := some "Unable to connect to ESPN. Check credentials." } := by
  have hconn : connectToEspn lid s2 swid mk
      = (none, some "Unable to connect to ESPN. Check credentials.") := by
    simp [connectToEspn, h]
  refine ⟨?_, ?_, ?_, ?_⟩ <;>
    simp [initFetcher, hconn, getLiveScores, buildSnapshot]

/-- Concrete instance of C9 with the league id missing. -/
theorem C9_config_error_witness :
    (buildSnapshot (initFetcher none (some "s2") (some "swid") (.ok ()) 3) [] (.ok []) "t").1
      = .ok { scores := [], last_update := "t", week := 3,
              api_error := some "Unable to connect to ESPN. Check credentials." } :=
  (C9_config_error none (some "s2") (some "swid") (.ok ()) 3 [] (.ok []) "t" rfl).2.2.2

/-- C10: with a connected league, a successful box-score fetch returns the
ranked list and clears api_error; a raising fetch records the exception
message in api_error and propagates the exception through _get_live_scores
and build_snapshot, so the failed cycle produces no snapshot. -/
theorem C10_fetch_error_state (err : Option String) (week : Nat)
    (clocks : List (String × ClockEntry)) (ms : List Matchup) (e : String) (ts : String) :
    getLiveScores ⟨some (), err, week⟩ clocks (.ok ms)
      = (.ok (sortAndRankTeams (teamsOfBoxScores clocks ms)), ⟨some (), none, week⟩)
    ∧ getLiveScores ⟨some (), err, week⟩ clocks (.error e)
      = (.error e, ⟨some (), some e, week⟩)
    ∧ (buildSnapshot ⟨some (), err, week⟩ clocks (.error e) ts).1 = .error e
    ∧ (buildSnapshot ⟨some (), err, week⟩ clocks (.error e) ts).2 = ⟨some (), some e, week⟩ :=
  ⟨rfl, rfl, rfl, rfl⟩

/-! ### The ranking engine (C2, C5) -/

theorem rankPass_length (l : List TeamScore) : (rankPass l).length = l.length := by
  simp [rankPass, withIndex_length]

theorem rankPass_map_rank (l : List TeamScore) :
    (rankPass l).map (fun t => t.rank)
      = (List.range' 0 l.length).map (fun j => some (j + 1)) := by
  unfold rankPass
  rw [List.map_map]
  exact withIndex_map_comp_fst (fun j => some (j + 1)) 0 l

theorem rankPass_map_top6 (l : List TeamScore) :
    (rankPass l).map (fun t => some t.is_current_top6)
      = (List.range' 0 l.length).map (fun j => some (decide (j < 6))) := by
  unfold rankPass
  rw [List.map_map]
  exact withIndex_map_comp_fst (fun j => some (decide (j < 6))) 0 l

theorem rankPass_map_rank_le6 (l : List TeamScore) :
    (rankPass l).map (fun t => t.rank.map (fun r => decide (r ≤ 6)))
      = (List.range' 0 l.length).map (fun j => some (decide (j + 1 ≤ 6))) := by
  unfold rankPass
  rw [List.map_map]
  exact withIndex_map_comp_fst (fun j => some (decide (j + 1 ≤ 6))) 0 l

theorem rankPass_map_live (l : List TeamScore) :
    (rankPass l).map (fun t => t.live_score) = l.map (fun t => t.live_score) := by
  unfold rankPass
  rw [List.map_map]
  exact withIndex_map_comp_snd (fun t : TeamScore => t.live_score) 0 l

theorem projPass_length (l : List TeamScore) : (projPass l).length = l.length := by
  simp [projPass, withIndex_length]

theorem projPass_map_projected_rank (l : List TeamScore) :
    (projPass l).map (fun t => t.projected_rank)
      = (List.range' 0 l.length).map (fun j => some (idxOfNat j (projPosList l) + 1)) := by
  unfold projPass
  rw [List.map_map]
  exact withIndex_map_comp_fst (fun j => some (idxOfNat j (projPosList l) + 1)) 0 l

theorem projPass_map_ptop6 (l : List TeamScore) :
    (projPass l).map (fun t => some t.is_projected_top6)
      = (List.range' 0 l.length).map (fun j => some (decide (idxOfNat j (projPosList l) < 6))) := by
  unfold projPass
  rw [List.map_map]
  exact withIndex_map_comp_fst (fun j => some (decide (idxOfNat j (projPosList l) < 6))) 0 l

theorem projPass_map_prank_le6 (l : List TeamScore) :
    (projPass l).map (fun t => t.projected_rank.map (fun r => decide (r ≤ 6)))
      = (List.range' 0 l.length).map
          (fun j => some (decide (idxOfNat j (projPosList l) + 1 ≤ 6))) := by
  unfold projPass
  rw [List.map_map]
  exact withIndex_map_comp_fst (fun j => some (decide (idxOfNat j (projPosList l) + 1 ≤ 6))) 0 l

theorem projPass_keep_rank (l : List TeamScore) :
    (projPass l).map (fun t => t.rank) = l.map (fun t => t.rank) := by
  unfold projPass
  rw [List.map_map]
  exact withIndex_map_comp_snd (fun t : TeamScore => t.rank) 0 l

theorem projPass_keep_top6 (l : List TeamScore) :
    (projPass l).map (fun t => some t.is_current_top6)
      = l.map (fun t => some t.is_current_top6) := by
  unfold projPass
  rw [List.map_map]
  exact withIndex_map_comp_snd (fun t : TeamScore => some t.is_current_top6) 0 l

theorem projPass_keep_rank_le6 (l : List TeamScore) :
    (projPass l).map (fun t => t.rank.map (fun r => decide (r ≤ 6)))
      = l.map (fun t => t.rank.map (fun r => decide (r ≤ 6))) := by
  unfold projPass
  rw [List.map_map]
  exact withIndex_map_comp_snd (fun t : TeamScore => t.rank.map (fun r => decide (r ≤ 6))) 0 l

theorem projPass_map_live (l : List TeamScore) :
    (projPass l).map (fun t => t.live_score) = l.map (fun t => t.live_score) := by
  unfold projPass
  rw [List.map_map]
  exact withIndex_map_comp_snd (fun t : TeamScore => t.live_score) 0 l

theorem projPosList_perm (l : List TeamScore) :
    (projPosList l).Perm (List.range' 0 l.length) := by
  have h1 := sortByDesc_perm (fun p : Nat × TeamScore => p.2.projected_score) (withIndex 0 l)
  have h2 := h1.map Prod.fst
  rw [withIndex_map_fst] at h2
  exact h2

theorem range'_some_succ (n : Nat) :
    (List.range' 0 n).map (fun j => some (j + 1)) = (List.range' 1 n).map some := by
  rw [← range'_map_succ 0 n, List.map_map]
  rfl

/-- C2: after the ranking operation, the rank values down the returned list
are exactly 1..N in order (hence a bijection onto 1..N), the projected_rank
values are a permutation of 1..N, every record's is_current_top6 flag equals
rank at most 6 and its is_projected_top6 flag equals projected_rank at most
6, the returned list is ordered by live score descending, and both rank
fields are populated on every record (the rank lists consist of some
values). -/
theorem C2_ranking (teams : List TeamScore) :
    (sortAndRankTeams teams).map (fun t => t.rank) = (List.range' 1 teams.length).map some
    ∧ ((sortAndRankTeams teams).map (fun t => t.projected_rank)).Perm
        ((List.range' 1 teams.length).map some)
    ∧ (sortAndRankTeams teams).map (fun t => some t.is_current_top6)
        = (sortAndRankTeams teams).map (fun t => t.rank.map (fun r => decide (r ≤ 6)))
    ∧ (sortAndRankTeams teams).map (fun t => some t.is_projected_top6)
        = (sortAndRankTeams teams).map (fun t => t.projected_rank.map (fun r => decide (r ≤ 6)))
    ∧ (sortAndRankTeams teams).Pairwise (fun a b => b.live_score ≤ a.live_score) := by
  have hbasePW := sortByDesc_pairwise (fun t : TeamScore => t.live_score) teams
  have hbaseLen : (sortByDesc (fun t : TeamScore => t.live_score) teams).length = teams.length :=
    (sortByDesc_perm (fun t : TeamScore => t.live_score) teams).length_eq
  have hRPlen : (rankPass (sortByDesc (fun t : TeamScore => t.live_score) teams)).length
      = teams.length := by rw [rankPass_length, hbaseLen]
  have hmapLive :
      (projPass (rankPass (sortByDesc (fun t : TeamScore => t.live_score) teams))).map
          (fun t => t.live_score)
        = (sortByDesc (fun t : TeamScore => t.live_score) teams).map (fun t => t.live_score) := by
    rw [projPass_map_live, rankPass_map_live]
  have hPW : (projPass (rankPass (sortByDesc (fun t : TeamScore => t.live_score) teams))).Pairwise
      (fun a b => b.live_score ≤ a.live_score) := by
    have h1 : List.Pairwise (fun a b : ℚ => b ≤ a)
        ((projPass (rankPass (sortByDesc (fun t : TeamScore => t.live_score) teams))).map
          (fun t => t.live_score)) := by
      rw [hmapLive]
      exact List.pairwise_map.mpr hbasePW
    exact List.pairwise_map.mp h1
  have hout : sortAndRankTeams teams
      = projPass (rankPass (sortByDesc (fun t : TeamScore => t.live_score) teams)) := by
    unfold sortAndRankTeams
    exact sortByDesc_eq_of_pairwise _ _ hPW
  have hPperm :
      (projPosList (rankPass (sortByDesc (fun t : TeamScore => t.live_score) teams))).Perm
        (List.range' 0 teams.length) := by
    have h := projPosList_perm (rankPass (sortByDesc (fun t : TeamScore => t.live_score) teams))
    rwa [hRPlen] at h
  refine ⟨?_, ?_, ?_, ?_, ?_⟩
  · rw [hout, projPass_keep_rank, rankPass_map_rank, hbaseLen, range'_some_succ]
  · rw [hout, projPass_map_projected_rank, hRPlen, ← range'_some_succ]
    have h := (perm_map_idxOfNat hPperm).map (fun k => some (k + 1))
    rw [List.map_map] at h
    exact h
  · rw [hout, projPass_keep_top6, projPass_keep_rank_le6, rankPass_map_top6,
      rankPass_map_rank_le6]
    exact List.map_congr_left
      (fun j _ => congrArg some (decide_eq_decide.mpr Nat.lt_iff_add_one_le))
  · rw [hout, projPass_map_ptop6, projPass_map_prank_le6]
    exact List.map_congr_left
      (fun j _ => congrArg some (decide_eq_decide.mpr Nat.lt_iff_add_one_le))
  · rw [hout]
    exact hPW

/-- C5 fails as stated for the projected ranking: two teams with equal
projected scores (50 and 50) in input order A then B, but live scores 10 and
20, receive projected ranks 2 and 1: the projected sort is applied to the
live-sorted list, so the tie keeps the live order B, A rather than the input
order A, B. -/
theorem C5_counterexample :
    demoTieTeams.map (fun t => t.projected_score) = [50, 50]
    ∧ (sortAndRankTeams demoTieTeams).map (fun t => (t.team_name, t.projected_rank))
        = [("B", some 1), ("A", some 2)] := by
  constructor
  · rfl
  · norm_num [sortAndRankTeams, sortByDesc, insertByDesc, withIndex, idxOfNat,
      demoTieTeams, demoTeam, rankPass, projPass, projPosList]

/-- C5 (amended): the current ranking breaks ties by stable input order, and
the projected ranking breaks ties by the stable order of the live-sorted
list (not of the original input); stability is expressed as: filtering the
sorted list down to any single key value returns those elements in exactly
their pre-sort order.  The concrete scenario holds: live scores
[88.2, 101.5, 101.5, 40.0] in input order T1..T4 yield ranks [3,1,2,4] (the
101.5 tie keeps T2 before T3) with every is_current_top6 flag true. -/
theorem C5_tie_stability :
    (∀ (teams : List TeamScore) (v : ℚ),
        (sortByDesc (fun t => t.live_score) teams).filter (fun t => decide (t.live_score = v))
          = teams.filter (fun t => decide (t.live_score = v)))
    ∧ (∀ (l : List (Nat × TeamScore)) (v : ℚ),
        (sortByDesc (fun p => p.2.projected_score) l).filter
            (fun p => decide (p.2.projected_score = v))
          = l.filter (fun p => decide (p.2.projected_score = v)))
    ∧ (sortAndRankTeams demoFourTeams).map (fun t => (t.team_name, t.rank, t.is_current_top6))
        = [("T2", some 1, true), ("T3", some 2, true), ("T1", some 3, true),
           ("T4", some 4, true)] := by
  refine ⟨?_, ?_, ?_⟩
  · intro teams v
    exact sortByDesc_filter_key (fun t : TeamScore => t.live_score) teams v
  · intro l v
    exact sortByDesc_filter_key (fun p : Nat × TeamScore => p.2.projected_score) l v
  · norm_num [sortAndRankTeams, sortByDesc, insertByDesc, withIndex, idxOfNat,
      demoFourTeams, demoTeam, rankPass, projPass, projPosList]
